import Mathlib

/-!
Verification of the SmartBazaar recommendation-generation pipeline.

Shallow embedding of the request/response orchestration found in
`smartmandi_backend/routes/pricingRoutes.js` (POST /recommend) and the
demand-forecast route (POST /predict): input validation, product mapping
outcomes, the external-predictor invocation events (timeout, process close,
process error), the double-response guard, and the rule-based fallback
pricing engine `generateFallbackRecommendations`.

JavaScript numbers are modelled as exact rationals (ℚ); `Math.round` is
round-half-toward-positive-infinity; absent object fields are `Option`;
the JavaScript falsy-or-default idiom `x || d` is modelled explicitly
(absent or zero selects the default).  Wall-clock reads (`new Date()`,
`Date.now()`, the derived weekday/season strings) are made an explicit
`Clock` argument.
-/

namespace SmartBazaar

/-- A product reference as it arrives in a batch request body.  Fields are
optional: the source reads them with the `x || default` idiom. -/
structure ProductInput where
  product_id : Option String
  product_name : Option String
  category : Option String
  current_price : Option ℚ
  stock_level : Option ℚ
  demand_score : Option ℚ
  days_left : Option ℚ
  weekday : Option String
  season : Option String
  deriving Repr, DecidableEq

/-- One reading of the wall clock, plus the strings the source derives from
it: `new Date().toLocaleDateString(..)` and `getCurrentSeason()`. -/
structure Clock where
  nowMs : ℤ
  weekdayStr : String
  seasonStr : String
  deriving Repr, DecidableEq

/-- JavaScript `x || d` on a possibly-absent numeric field: `undefined` and
`0` are falsy and select the default. -/
def jsOrNum (x : Option ℚ) (d : ℚ) : ℚ :=
  match x with
  | none => d
  | some v => if v = 0 then d else v

/-- JavaScript `x || d` on a possibly-absent string field: `undefined` and
the empty string are falsy and select the default. -/
def jsOrStr (x : Option String) (d : String) : String :=
  match x with
  | none => d
  | some v => if v = "" then d else v

/-- JavaScript `Math.round`: round half toward positive infinity. -/
def jsRound (q : ℚ) : ℤ := ⌊q + 1/2⌋

/-- `Math.round(q * 100) / 100` — round to 2 decimal places. -/
def round2 (q : ℚ) : ℚ := (jsRound (q * 100) : ℚ) / 100

/-- Demand rule of the fallback engine (first rule of the chain):
`demandScore > 70` raises the multiplier by 5 percent, `demandScore < 30`
lowers it by 5 percent; each overwrites the reason string. -/
def demandRule (demandScore : ℚ) (s : ℚ × String) : ℚ × String :=
  if demandScore > 70 then
    (s.1 * 1.05, "High demand detected - price increase recommended")
  else if demandScore < 30 then
    (s.1 * 0.95, "Low demand - price reduction to boost sales")
  else s

/-- Stock rule of the fallback engine (second rule of the chain):
`stockLevel < 50` raises the multiplier by 3 percent, `stockLevel > 200`
lowers it by 3 percent. -/
def stockRule (stockLevel : ℚ) (s : ℚ × String) : ℚ × String :=
  if stockLevel < 50 then
    (s.1 * 1.03, "Low stock levels - price increase to manage demand")
  else if stockLevel > 200 then
    (s.1 * 0.97, "High inventory levels - price reduction to clear stock")
  else s

/-- Expiry rule of the fallback engine (third rule of the chain):
`daysLeft <= 2` applies the urgent 20 percent cut, otherwise
`daysLeft <= 5` applies a 10 percent cut. -/
def expiryRule (daysLeft : ℚ) (s : ℚ × String) : ℚ × String :=
  if daysLeft ≤ 2 then
    (s.1 * 0.80, "Product nearing expiry - urgent price reduction")
  else if daysLeft ≤ 5 then
    (s.1 * 0.90, "Product nearing expiry - price reduction to clear stock")
  else s

/-- The full multiplicative rule chain of `generateFallbackRecommendations`,
started at multiplier 1.0 with the neutral reason, applied in source order:
demand, then stock, then expiry.  Later rules overwrite the reason. -/
def ruleChain (demandScore stockLevel daysLeft : ℚ) : ℚ × String :=
  expiryRule daysLeft (stockRule stockLevel (demandRule demandScore
    (1, "Current price is optimal")))

/-- A fallback price recommendation, with exactly the fields the object
literal in `generateFallbackRecommendations` builds. -/
structure FallbackRec where
  product_id : Option String
  product_name : Option String
  category : Option String
  current_price : ℚ
  recommended_price : ℚ
  price_change_percentage : ℚ
  demand_score : ℚ
  stock_level : ℚ
  days_left : ℚ
  weekday : String
  season : String
  confidence_score : ℚ
  recommendation_reason : String
  model_version : String
  created_at : ℤ
  valid_until : ℤ
  is_applied : Bool
  deriving Repr, DecidableEq

/-- The per-product body of `generateFallbackRecommendations` (the function
mapped over `products`): default the four numeric fields with `||`, run the
rule chain, compute the recommended price and percentage change (the
percentage from the unrounded price), round both to 2 decimals, and fill
the literal fields.  The clock reads (`new Date()`, `Date.now()`,
weekday/season defaults) come from `clk`. -/
def generateFallbackOne (clk : Clock) (p : ProductInput) : FallbackRec :=
  let currentPrice := jsOrNum p.current_price 25
  let stockLevel := jsOrNum p.stock_level 100
  let demandScore := jsOrNum p.demand_score 50
  let daysLeft := jsOrNum p.days_left 7
  let chain := ruleChain demandScore stockLevel daysLeft
  let recommendedPrice := currentPrice * chain.1
  let priceChange := (recommendedPrice - currentPrice) / currentPrice * 100
  { product_id := p.product_id
    product_name := p.product_name
    category := p.category
    current_price := currentPrice
    recommended_price := round2 recommendedPrice
    price_change_percentage := round2 priceChange
    demand_score := demandScore
    stock_level := stockLevel
    days_left := daysLeft
    weekday := jsOrStr p.weekday clk.weekdayStr
    season := jsOrStr p.season clk.seasonStr
    confidence_score := 0.75
    recommendation_reason := chain.2
    model_version := "fallback-1.0"
    created_at := clk.nowMs
    valid_until := clk.nowMs + 24 * 60 * 60 * 1000
    is_applied := false }

/-- `generateFallbackRecommendations`: the fallback engine over a product
batch. -/
def generateFallbackRecommendations (clk : Clock) (ps : List ProductInput) :
    List FallbackRec :=
  ps.map (generateFallbackOne clk)

/-! Route orchestration: events of one external-predictor invocation, the
responses the handlers build, and the double-response guard
(`responseTimeout` flag plus `res.headersSent`). -/

/-- One recommendation item inside a successful external-model payload.  Its
contents come from the external predictor and are opaque to this backend;
the route only stores and echoes them. -/
structure MLRecommendation where
  raw : String
  deriving Repr, DecidableEq

/-- The JSON payload parsed from the last stdout line of the pricing
predictor: an embedded success flag, a recommendation list, and a count. -/
structure MLPayload where
  success : Bool
  recommendations : List MLRecommendation
  total_recommendations : ℤ
  deriving Repr, DecidableEq

/-- Body data of a pricing response: either the external payload or the
fallback recommendations (error bodies carry neither). -/
inductive PricingData
  | ml (payload : MLPayload)
  | fb (recs : List FallbackRec)
  | empty
  deriving Repr, DecidableEq

/-- An HTTP response of the pricing /recommend route (`res.json` defaults
the status to 200). -/
structure PricingResponse where
  status : ℕ
  success : Bool
  data : PricingData
  message : String
  note : Option String
  deriving Repr, DecidableEq

/-- The asynchronous events one pricing predictor invocation can deliver:
the armed deadline timer fires; the child process closes (Node gives the
exit code as a number or null, and the handler then parses the last output
line — `parsed` is the result of that `JSON.parse`, `none` when it throws);
or the process emits an error (start failure). -/
inductive PricingEvent
  | timeout
  | close (code : Option ℤ) (parsed : Option MLPayload)
  | procError
  deriving Repr, DecidableEq

/-- Whether an event is the clean-success outcome: exit code 0, parseable
final line, embedded `success` flag true. -/
def PricingEvent.isCleanSuccess : PricingEvent → Bool
  | .close (some 0) (some pl) => pl.success
  | _ => false

/-- The response `generateFallbackRecommendations` sends: `res.json` (status
200) with the fallback recommendations, a message, and the fallback note. -/
def fallbackResponse (clk : Clock) (ps : List ProductInput) : PricingResponse :=
  let recs := generateFallbackRecommendations clk ps
  { status := 200
    success := true
    data := .fb recs
    message := "Generated " ++ toString recs.length ++
      " price recommendations using fallback logic"
    note := some "Generated using fallback pricing algorithm" }

/-- What each pricing handler sends when no response has been sent yet:
timeout and process-error run the fallback; close on nonzero (or null) exit
code, unparseable output, or an embedded failure flag runs the fallback,
and on clean success echoes the external payload. -/
def pricingHandlerResponse (clk : Clock) (ps : List ProductInput) :
    PricingEvent → PricingResponse
  | .timeout => fallbackResponse clk ps
  | .procError => fallbackResponse clk ps
  | .close code parsed =>
      if code ≠ some 0 then fallbackResponse clk ps
      else
        match parsed with
        | none => fallbackResponse clk ps
        | some pl =>
            if pl.success then
              { status := 200
                success := true
                data := .ml pl
                message := "Generated " ++ toString pl.total_recommendations ++
                  " price recommendations"
                note := none }
            else fallbackResponse clk ps

/-- The per-invocation guard state: `headersSent` is Express's
`res.headersSent` (set once a response goes out), `responseTimeout` is the
route's local flag set by the timer callback. -/
structure RaceState where
  headersSent : Bool
  responseTimeout : Bool
  deriving Repr, DecidableEq

/-- Guard state before any event has fired. -/
def RaceState.init : RaceState := ⟨false, false⟩

/-- One pricing handler activation.  The timer callback sets
`responseTimeout` and responds unless `res.headersSent`; the close and
error callbacks clear the timer and return without responding when
`responseTimeout || res.headersSent`. -/
def pricingStep (clk : Clock) (ps : List ProductInput) (s : RaceState) :
    PricingEvent → RaceState × Option PricingResponse
  | .timeout =>
      if s.headersSent then ({ s with responseTimeout := true }, none)
      else (⟨true, true⟩, some (fallbackResponse clk ps))
  | .close code parsed =>
      if s.responseTimeout || s.headersSent then (s, none)
      else ({ s with headersSent := true },
            some (pricingHandlerResponse clk ps (.close code parsed)))
  | .procError =>
      if s.responseTimeout || s.headersSent then (s, none)
      else ({ s with headersSent := true },
            some (pricingHandlerResponse clk ps .procError))

/-- Run a sequence of pricing events through the guard, collecting every
response that actually goes out. -/
def pricingRun (clk : Clock) (ps : List ProductInput) :
    RaceState → List PricingEvent → List PricingResponse
  | _, [] => []
  | s, e :: rest =>
      match pricingStep clk ps s e with
      | (s', some r) => r :: pricingRun clk ps s' rest
      | (s', none) => pricingRun clk ps s' rest

/-- One forecast item inside a successful demand payload (the fields the
route logs and persists). -/
structure DemandPrediction where
  product_id : String
  product_name : String
  category : String
  city : String
  forecast_date : String
  predicted_units : ℚ
  day_of_week : String
  confidence_score : ℚ
  deriving Repr, DecidableEq

/-- The JSON payload parsed from the last stdout line of the demand
predictor. -/
structure DemandPayload where
  success : Bool
  error : Option String
  predictions : List DemandPrediction
  total_predictions : ℤ
  deriving Repr, DecidableEq

/-- An HTTP response of the demand /predict route. -/
structure DemandResponse where
  status : ℕ
  success : Bool
  error : Option String
  data : Option DemandPayload
  deriving Repr, DecidableEq

/-- The asynchronous events one demand predictor invocation can deliver. -/
inductive DemandEvent
  | timeout
  | close (code : Option ℤ) (parsed : Option DemandPayload)
  | procError
  deriving Repr, DecidableEq

/-- Whether a demand event is the clean-success outcome. -/
def DemandEvent.isCleanSuccess : DemandEvent → Bool
  | .close (some 0) (some pl) => pl.success
  | _ => false

/-- What each demand handler does when no response has been sent yet: the
response it sends and the DemandForecast records it persists (persistence
is best-effort: nothing is saved when the database is down, modelled by
`dbOk`).  Every outcome other than clean success is a 500 with no
persistence; clean success persists the payload's predictions and responds
200. -/
def demandHandlerResult (dbOk : Bool) :
    DemandEvent → DemandResponse × List DemandPrediction
  | .timeout =>
      ({ status := 500, success := false,
         error := some "Model prediction timeout", data := none }, [])
  | .procError =>
      ({ status := 500, success := false,
         error := some "Failed to start Python process", data := none }, [])
  | .close code parsed =>
      if code ≠ some 0 then
        ({ status := 500, success := false,
           error := some "Model prediction failed", data := none }, [])
      else
        match parsed with
        | none =>
            ({ status := 500, success := false,
               error := some "Failed to parse model response", data := none }, [])
        | some pl =>
            if pl.success then
              ({ status := 200, success := true, error := none,
                 data := some pl },
               if dbOk then pl.predictions else [])
            else
              ({ status := 500, success := false,
                 error := some "Model prediction failed", data := none }, [])

/-- One demand handler activation, with the same guard structure as the
pricing route. -/
def demandStep (dbOk : Bool) (s : RaceState) :
    DemandEvent → RaceState × Option (DemandResponse × List DemandPrediction)
  | .timeout =>
      if s.headersSent then ({ s with responseTimeout := true }, none)
      else (⟨true, true⟩, some (demandHandlerResult dbOk .timeout))
  | .close code parsed =>
      if s.responseTimeout || s.headersSent then (s, none)
      else ({ s with headersSent := true },
            some (demandHandlerResult dbOk (.close code parsed)))
  | .procError =>
      if s.responseTimeout || s.headersSent then (s, none)
      else ({ s with headersSent := true },
            some (demandHandlerResult dbOk .procError))

/-- Run a sequence of demand events through the guard. -/
def demandRun (dbOk : Bool) :
    RaceState → List DemandEvent → List (DemandResponse × List DemandPrediction)
  | _, [] => []
  | s, e :: rest =>
      match demandStep dbOk s e with
      | (s', some r) => r :: demandRun dbOk s' rest
      | (s', none) => demandRun dbOk s' rest

/-! Preflight: request-body validation and the product-mapping step, which
both routes run before invoking the external predictor. -/

/-- The `products` field of the request body as the validation check
`!products || !Array.isArray(products) || products.length === 0` sees it:
absent (or otherwise falsy), present but not an array, or an array. -/
inductive ProductsField
  | missing
  | nonArray
  | arr (ps : List ProductInput)
  deriving Repr, DecidableEq

/-- Outcome of `productMappingService.mapProductInputs`: the mapped list,
or a rejection (service threw, or — on the demand route — the 5-second
mapping race timed out). -/
inductive MapOutcome
  | ok (mapped : List ProductInput)
  | err
  deriving Repr, DecidableEq

/-- Result of the pre-invocation phase: an early response (the predictor is
never invoked) or the product list the predictor is invoked with. -/
inductive PreflightResult
  | respond (status : ℕ) (error : String)
  | invoke (products : List ProductInput)
  deriving Repr, DecidableEq

/-- The pricing route enriches each mapped product with defaulted weekday
and season before invoking the predictor. -/
def enrichProducts (clk : Clock) (ps : List ProductInput) : List ProductInput :=
  ps.map fun p =>
    { p with weekday := some (jsOrStr p.weekday clk.weekdayStr)
             season := some (jsOrStr p.season clk.seasonStr) }

/-- Pre-invocation phase of POST /recommend: reject a missing, non-array or
empty `products` field with 400; a mapping-service rejection propagates to
the route's outer catch, which responds 500; an empty mapped list is a 400;
otherwise the predictor is invoked with the enriched products. -/
def pricingPreflight (clk : Clock) (pf : ProductsField) (m : MapOutcome) :
    PreflightResult :=
  match pf with
  | .arr ps =>
      if ps.isEmpty then .respond 400 "Products array is required"
      else
        match m with
        | .err => .respond 500 "Failed to generate price recommendations"
        | .ok mapped =>
            if mapped.isEmpty then
              .respond 400 "No valid products found after mapping"
            else .invoke (enrichProducts clk mapped)
  | _ => .respond 400 "Products array is required"

/-- Pre-invocation phase of POST /predict: same validation; a
mapping-service rejection (including the 5-second mapping timeout) is
caught locally and answered with status 400 "Product mapping failed". -/
def demandPreflight (pf : ProductsField) (m : MapOutcome) : PreflightResult :=
  match pf with
  | .arr ps =>
      if ps.isEmpty then .respond 400 "Products array is required"
      else
        match m with
        | .err => .respond 400 "Product mapping failed"
        | .ok mapped =>
            if mapped.isEmpty then
              .respond 400 "No valid products found after mapping"
            else .invoke mapped
  | _ => .respond 400 "Products array is required"

/-- The HTTP status of a preflight result, when it responded early. -/
def PreflightResult.statusOf : PreflightResult → Option ℕ
  | .respond st _ => some st
  | .invoke _ => none

/-! Concrete test fixtures. -/

/-- The scenario product of the spec's fallback test case: current price 40,
stock 30, demand 80, one day left. -/
def sampleProduct : ProductInput :=
  { product_id := some "P001"
    product_name := some "Tomato"
    category := some "Vegetables"
    current_price := some 40
    stock_level := some 30
    demand_score := some 80
    days_left := some 1
    weekday := some "Monday"
    season := some "Winter" }

/-- A fixed clock reading for concrete evaluations. -/
def testClock : Clock := ⟨0, "Monday", "Winter"⟩

/-! Helper lemmas about the defaulting idiom. -/

/-- An absent field takes the default. -/
theorem jsOrNum_none (d : ℚ) : jsOrNum none d = d := rfl

/-- A zero field is falsy and takes the default. -/
theorem jsOrNum_some_zero (d : ℚ) : jsOrNum (some 0) d = d := by
  simp [jsOrNum]

/-- The defaulted value is nonzero whenever the default is. -/
theorem jsOrNum_ne_zero (x : Option ℚ) (d : ℚ) (hd : d ≠ 0) :
    jsOrNum x d ≠ 0 := by
  cases x with
  | none => simpa [jsOrNum] using hd
  | some v =>
      by_cases hv : v = 0
      · simpa [jsOrNum, hv] using hd
      · simp [jsOrNum, hv]

/-! Claims about the fallback pricing engine. -/

/-- C4: on the product with current price 40, stock 30, demand score 80 and
one day left, the fallback engine multiplies 1.05 (high demand), 1.03 (low
stock) and 0.80 (urgent near-expiry) into 0.8652, recommends 34.61 after
rounding to 2 decimals, keeps the reason of the last applicable rule (the
urgent near-expiry rule), and reports confidence 0.75. -/
theorem c4_fallback_scenario (clk : Clock) :
    (ruleChain 80 30 1).1 = 1.05 * 1.03 * 0.80 ∧
    (ruleChain 80 30 1).1 = 0.8652 ∧
    (generateFallbackOne clk sampleProduct).recommended_price = 34.61 ∧
    (generateFallbackOne clk sampleProduct).recommendation_reason =
      "Product nearing expiry - urgent price reduction" ∧
    (generateFallbackOne clk sampleProduct).confidence_score = 0.75 := by
  refine ⟨?_, ?_, ?_, ?_, ?_⟩ <;>
    norm_num [generateFallbackOne, sampleProduct, jsOrNum, ruleChain,
      demandRule, stockRule, expiryRule, round2, jsRound]

/-- C5: the fallback rule thresholds are strict: demand score exactly 70
fires no demand rule; 2 days left fires the urgent 0.80 tier, 5 days left
the lesser 0.90 tier, and 6 days left neither. -/
theorem c5_rule_thresholds :
    (∀ s : ℚ × String, demandRule 70 s = s) ∧
    (∀ s : ℚ × String, expiryRule 2 s =
      (s.1 * 0.80, "Product nearing expiry - urgent price reduction")) ∧
    (∀ s : ℚ × String, expiryRule 5 s =
      (s.1 * 0.90, "Product nearing expiry - price reduction to clear stock")) ∧
    (∀ s : ℚ × String, expiryRule 6 s = s) := by
  refine ⟨?_, ?_, ?_, ?_⟩ <;> intro s <;>
    norm_num [demandRule, expiryRule]

/-- C6 counterexample: the fallback engine reads the wall clock (`new
Date()`, `Date.now()`), so two invocations on the identical product input
at different clock instants differ in the `created_at` field — the output
is not a function of the product input alone. -/
theorem c6_counterexample :
    generateFallbackOne ⟨0, "Monday", "Winter"⟩ sampleProduct ≠
      generateFallbackOne ⟨1, "Monday", "Winter"⟩ sampleProduct := by
  intro h
  have h2 := congrArg FallbackRec.created_at h
  simp [generateFallbackOne] at h2

/-- C6 amended: the fallback engine is deterministic given the clock
reading, and every field except the clock-derived ones (`created_at`,
`valid_until`, and the defaulted `weekday`/`season`) depends only on the
product input: the two results agree on those fields across any two clock
readings. -/
theorem c6_amended_clock_determinism (p : ProductInput) (c1 c2 : Clock) :
    (generateFallbackOne c1 p).product_id = (generateFallbackOne c2 p).product_id ∧
    (generateFallbackOne c1 p).product_name = (generateFallbackOne c2 p).product_name ∧
    (generateFallbackOne c1 p).category = (generateFallbackOne c2 p).category ∧
    (generateFallbackOne c1 p).current_price = (generateFallbackOne c2 p).current_price ∧
    (generateFallbackOne c1 p).recommended_price = (generateFallbackOne c2 p).recommended_price ∧
    (generateFallbackOne c1 p).price_change_percentage = (generateFallbackOne c2 p).price_change_percentage ∧
    (generateFallbackOne c1 p).demand_score = (generateFallbackOne c2 p).demand_score ∧
    (generateFallbackOne c1 p).stock_level = (generateFallbackOne c2 p).stock_level ∧
    (generateFallbackOne c1 p).days_left = (generateFallbackOne c2 p).days_left ∧
    (generateFallbackOne c1 p).confidence_score = (generateFallbackOne c2 p).confidence_score ∧
    (generateFallbackOne c1 p).recommendation_reason = (generateFallbackOne c2 p).recommendation_reason ∧
    (generateFallbackOne c1 p).model_version = (generateFallbackOne c2 p).model_version ∧
    (generateFallbackOne c1 p).is_applied = (generateFallbackOne c2 p).is_applied :=
  ⟨rfl, rfl, rfl, rfl, rfl, rfl, rfl, rfl, rfl, rfl, rfl, rfl, rfl⟩

/-- C7: the fallback engine is a total function of its (rational-valued)
inputs — it is defined for every product, including zero and negative
prices, stocks, scores and days.  The only division it performs is the
percentage change `(recommended - current) / current * 100`, and its
divisor, the defaulted current price, is never zero (a zero or absent
current price defaults to 25), so in the exact-rational model no NaN or
infinite value can arise. -/
theorem c7_fallback_total (clk : Clock) (p : ProductInput) :
    (generateFallbackOne clk p).current_price ≠ 0 ∧
    (generateFallbackOne clk p).price_change_percentage =
      round2 (((generateFallbackOne clk p).current_price *
          (ruleChain (generateFallbackOne clk p).demand_score
            (generateFallbackOne clk p).stock_level
            (generateFallbackOne clk p).days_left).1 -
        (generateFallbackOne clk p).current_price) /
        (generateFallbackOne clk p).current_price * 100) := by
  constructor
  · show jsOrNum p.current_price 25 ≠ 0
    exact jsOrNum_ne_zero _ _ (by norm_num)
  · rfl

/-- C10: a contextual field equal to 0 is falsy and treated as absent: a
product with 0 days left behaves exactly like one with the default 7 days
left (so no expiry adjustment fires — 7 days trigger neither tier), and a
product with current price 0 behaves like one with no price, priced from
the base 25. -/
theorem c10_zero_is_absent (clk : Clock) (p : ProductInput) :
    generateFallbackOne clk { p with days_left := some 0 } =
      generateFallbackOne clk { p with days_left := some 7 } ∧
    generateFallbackOne clk { p with days_left := some 0 } =
      generateFallbackOne clk { p with days_left := none } ∧
    (generateFallbackOne clk { p with days_left := some 0 }).days_left = 7 ∧
    (∀ s : ℚ × String, expiryRule 7 s = s) ∧
    generateFallbackOne clk { p with current_price := some 0 } =
      generateFallbackOne clk { p with current_price := none } ∧
    (generateFallbackOne clk { p with current_price := some 0 }).current_price = 25 := by
  refine ⟨?_, ?_, ?_, ?_, ?_, ?_⟩ <;>
    norm_num [generateFallbackOne, jsOrNum, expiryRule]

/-! Claims about the route orchestration. -/

/-- Every pricing outcome other than clean success is answered from a fresh
state with the fallback response. -/
theorem pricingHandlerResponse_of_failure (clk : Clock) (ps : List ProductInput)
    (e : PricingEvent) (h : e.isCleanSuccess = false) :
    pricingHandlerResponse clk ps e = fallbackResponse clk ps := by
  cases e with
  | timeout => rfl
  | procError => rfl
  | close code parsed =>
      cases code with
      | none => rfl
      | some c =>
          by_cases hc : c = 0
          · subst hc
            cases parsed with
            | none => simp [pricingHandlerResponse]
            | some pl =>
                have hs : pl.success = false := by
                  simpa [PricingEvent.isCleanSuccess] using h
                simp [pricingHandlerResponse, hs]
          · simp [pricingHandlerResponse, hc]

/-- C2: for every pricing batch whose predictor invocation ends in any
outcome other than clean success (nonzero or null exit code, timeout,
start failure, unparseable final line, or a payload whose embedded success
flag is false), the handler still answers with HTTP 200, the note announces
the fallback, the body carries the fallback recommendations, and every one
of them has model_version "fallback-1.0" and confidence exactly 0.75. -/
theorem c2_pricing_falls_back (clk : Clock) (ps : List ProductInput)
    (e : PricingEvent) (h : e.isCleanSuccess = false) :
    (pricingHandlerResponse clk ps e).status = 200 ∧
    (pricingHandlerResponse clk ps e).note =
      some "Generated using fallback pricing algorithm" ∧
    (pricingHandlerResponse clk ps e).data =
      .fb (generateFallbackRecommendations clk ps) ∧
    ∀ r ∈ generateFallbackRecommendations clk ps,
      r.model_version = "fallback-1.0" ∧ r.confidence_score = 0.75 := by
  rw [pricingHandlerResponse_of_failure clk ps e h]
  refine ⟨rfl, rfl, rfl, ?_⟩
  intro r hr
  rcases List.mem_map.mp hr with ⟨p, _, rfl⟩
  exact ⟨rfl, rfl⟩

/-- Witness for C2: the timeout outcome on the sample batch. -/
theorem c2_witness :
    PricingEvent.isCleanSuccess .timeout = false ∧
    ((pricingHandlerResponse testClock [sampleProduct] .timeout).status = 200 ∧
     (pricingHandlerResponse testClock [sampleProduct] .timeout).note =
       some "Generated using fallback pricing algorithm" ∧
     (pricingHandlerResponse testClock [sampleProduct] .timeout).data =
       .fb (generateFallbackRecommendations testClock [sampleProduct]) ∧
     ∀ r ∈ generateFallbackRecommendations testClock [sampleProduct],
       r.model_version = "fallback-1.0" ∧ r.confidence_score = 0.75) :=
  ⟨rfl, c2_pricing_falls_back testClock [sampleProduct] .timeout rfl⟩

/-- C3: for every demand-forecast batch whose predictor invocation ends in
any outcome other than clean success, the handler answers HTTP 500 with a
failure body, and no DemandForecast record is persisted; conversely,
records are only ever persisted from a clean-success payload. -/
theorem c3_demand_hard_failure (dbOk : Bool) (e : DemandEvent)
    (h : e.isCleanSuccess = false) :
    (demandHandlerResult dbOk e).1.status = 500 ∧
    (demandHandlerResult dbOk e).1.success = false ∧
    (demandHandlerResult dbOk e).2 = [] ∧
    ∀ (d : Bool) (e2 : DemandEvent),
      (demandHandlerResult d e2).2 ≠ [] → e2.isCleanSuccess = true := by
  have hconv : ∀ (d : Bool) (e2 : DemandEvent),
      (demandHandlerResult d e2).2 ≠ [] → e2.isCleanSuccess = true := by
    intro d e2 hne
    cases e2 with
    | timeout => exact absurd rfl hne
    | procError => exact absurd rfl hne
    | close code parsed =>
        cases code with
        | none => exact absurd rfl hne
        | some c =>
            by_cases hc : c = 0
            · subst hc
              cases parsed with
              | none => exact absurd rfl hne
              | some pl =>
                  by_cases hs : pl.success
                  · simp [DemandEvent.isCleanSuccess, hs]
                  · simp [demandHandlerResult, hs] at hne
            · simp [demandHandlerResult, hc] at hne
  cases e with
  | timeout => exact ⟨rfl, rfl, rfl, hconv⟩
  | procError => exact ⟨rfl, rfl, rfl, hconv⟩
  | close code parsed =>
      cases code with
      | none => exact ⟨rfl, rfl, rfl, hconv⟩
      | some c =>
          by_cases hc : c = 0
          · subst hc
            cases parsed with
            | none =>
                refine ⟨?_, ?_, ?_, hconv⟩ <;> simp [demandHandlerResult]
            | some pl =>
                have hs : pl.success = false := by
                  simpa [DemandEvent.isCleanSuccess] using h
                refine ⟨?_, ?_, ?_, hconv⟩ <;> simp [demandHandlerResult, hs]
          · refine ⟨?_, ?_, ?_, hconv⟩ <;> simp [demandHandlerResult, hc]

/-- Witness for C3: the timeout outcome with the database up. -/
theorem c3_witness :
    DemandEvent.isCleanSuccess .timeout = false ∧
    ((demandHandlerResult true .timeout).1.status = 500 ∧
     (demandHandlerResult true .timeout).1.success = false ∧
     (demandHandlerResult true .timeout).2 = [] ∧
     ∀ (d : Bool) (e2 : DemandEvent),
       (demandHandlerResult d e2).2 ≠ [] → e2.isCleanSuccess = true) :=
  ⟨rfl, c3_demand_hard_failure true .timeout rfl⟩

/-- C8: a request body whose products field is missing, not an array, or an
empty array is rejected with HTTP 400 "Products array is required" by both
routes, whatever the mapping service would have returned — and since the
preflight result is an early response rather than an invocation, the
external predictor is never started. -/
theorem c8_validation_rejects (clk : Clock) (m : MapOutcome)
    (pf : ProductsField)
    (h : pf = .missing ∨ pf = .nonArray ∨ pf = .arr []) :
    pricingPreflight clk pf m = .respond 400 "Products array is required" ∧
    demandPreflight pf m = .respond 400 "Products array is required" := by
  rcases h with h | h | h <;> subst h <;> exact ⟨rfl, rfl⟩

/-- Witness for C8: the missing products field. -/
theorem c8_witness :
    (ProductsField.missing = .missing ∨ ProductsField.missing = .nonArray ∨
      ProductsField.missing = .arr []) ∧
    (pricingPreflight testClock .missing (.ok []) =
       .respond 400 "Products array is required" ∧
     demandPreflight .missing (.ok []) =
       .respond 400 "Products array is required") :=
  ⟨Or.inl rfl, c8_validation_rejects testClock (.ok []) .missing (Or.inl rfl)⟩

/-- C9 counterexample: on a nonempty batch whose mapping step fails, the
demand-forecast route answers HTTP 400 "Product mapping failed" — a client
error, not the server error the claim requires. -/
theorem c9_counterexample :
    demandPreflight (.arr [sampleProduct]) .err =
      .respond 400 "Product mapping failed" ∧
    (demandPreflight (.arr [sampleProduct]) .err).statusOf ≠ some 500 := by
  refine ⟨rfl, ?_⟩
  simp [demandPreflight, PreflightResult.statusOf]

/-- C9 amended: a mapping-step failure is never silently treated as zero
matches — it produces its own error response, distinct from the
zero-matches rejection — but the status differs per route: the pricing
route surfaces it through its outer catch as a server error (500), while
the demand-forecast route answers it locally as a client error (400,
"Product mapping failed"). -/
theorem c9_amended_mapping_failure (clk : Clock) (ps : List ProductInput)
    (h : ps ≠ []) :
    pricingPreflight clk (.arr ps) .err =
      .respond 500 "Failed to generate price recommendations" ∧
    demandPreflight (.arr ps) .err = .respond 400 "Product mapping failed" ∧
    ∀ mapped : List ProductInput,
      demandPreflight (.arr ps) (.ok mapped) ≠
        .respond 400 "Product mapping failed" ∧
      pricingPreflight clk (.arr ps) (.ok mapped) ≠
        .respond 500 "Failed to generate price recommendations" := by
  cases ps with
  | nil => exact absurd rfl h
  | cons a as =>
      refine ⟨rfl, rfl, ?_⟩
      intro mapped
      constructor
      · by_cases hm : mapped.isEmpty <;>
          simp [demandPreflight, hm]
      · by_cases hm : mapped.isEmpty <;>
          simp [pricingPreflight, hm]

/-- Witness for C9's amended theorem: a one-product batch. -/
theorem c9_witness :
    [sampleProduct] ≠ [] ∧
    (pricingPreflight testClock (.arr [sampleProduct]) .err =
       .respond 500 "Failed to generate price recommendations" ∧
     demandPreflight (.arr [sampleProduct]) .err =
       .respond 400 "Product mapping failed" ∧
     ∀ mapped : List ProductInput,
       demandPreflight (.arr [sampleProduct]) (.ok mapped) ≠
         .respond 400 "Product mapping failed" ∧
       pricingPreflight testClock (.arr [sampleProduct]) (.ok mapped) ≠
         .respond 500 "Failed to generate price recommendations") :=
  ⟨by simp, c9_amended_mapping_failure testClock [sampleProduct] (by simp)⟩

/-! The double-response guard. -/

/-- Once a response has gone out, every later pricing handler is a no-op:
it emits nothing and leaves `headersSent` set. -/
theorem pricingStep_after_sent (clk : Clock) (ps : List ProductInput)
    (s : RaceState) (e : PricingEvent) (hs : s.headersSent = true) :
    (pricingStep clk ps s e).1.headersSent = true ∧
    (pricingStep clk ps s e).2 = none := by
  cases e <;> simp [pricingStep, hs]

/-- A pricing run started with `headersSent` set emits nothing. -/
theorem pricingRun_after_sent (clk : Clock) (ps : List ProductInput) :
    ∀ (evs : List PricingEvent) (s : RaceState), s.headersSent = true →
      pricingRun clk ps s evs = [] := by
  intro evs
  induction evs with
  | nil => intro s _; rfl
  | cons e rest ih =>
      intro s hs
      have h1 := pricingStep_after_sent clk ps s e hs
      have hstep : pricingStep clk ps s e =
          ((pricingStep clk ps s e).1, none) := by rw [← h1.2]
      simp only [pricingRun]
      rw [hstep]
      exact ih _ h1.1

/-- From the initial state, every pricing handler responds, with the
fresh-state response, and marks the headers sent. -/
theorem pricingStep_init (clk : Clock) (ps : List ProductInput)
    (e : PricingEvent) :
    (pricingStep clk ps .init e).1.headersSent = true ∧
    (pricingStep clk ps .init e).2 = some (pricingHandlerResponse clk ps e) := by
  cases e <;> simp [pricingStep, RaceState.init, pricingHandlerResponse]

/-- Demand-route analogue of `pricingStep_after_sent`. -/
theorem demandStep_after_sent (dbOk : Bool) (s : RaceState) (e : DemandEvent)
    (hs : s.headersSent = true) :
    (demandStep dbOk s e).1.headersSent = true ∧
    (demandStep dbOk s e).2 = none := by
  cases e <;> simp [demandStep, hs]

/-- A demand run started with `headersSent` set emits nothing. -/
theorem demandRun_after_sent (dbOk : Bool) :
    ∀ (evs : List DemandEvent) (s : RaceState), s.headersSent = true →
      demandRun dbOk s evs = [] := by
  intro evs
  induction evs with
  | nil => intro s _; rfl
  | cons e rest ih =>
      intro s hs
      have h1 := demandStep_after_sent dbOk s e hs
      have hstep : demandStep dbOk s e =
          ((demandStep dbOk s e).1, none) := by rw [← h1.2]
      simp only [demandRun]
      rw [hstep]
      exact ih _ h1.1

/-- Demand-route analogue of `pricingStep_init`. -/
theorem demandStep_init (dbOk : Bool) (e : DemandEvent) :
    (demandStep dbOk .init e).1.headersSent = true ∧
    (demandStep dbOk .init e).2 = some (demandHandlerResult dbOk e) := by
  cases e <;> simp [demandStep, RaceState.init]

/-- C1: for every predictor invocation, pricing or demand-forecasting, and
every sequence of events delivered to its handlers (the deadline timer
firing, a late process close, a late process error, in any order), exactly
one HTTP response is sent, and it is the one the first event's handler
computes: the first handler to observe that no response has been sent
responds, and every later handler is a no-op. -/
theorem c1_exactly_one_response (clk : Clock) (ps : List ProductInput)
    (dbOk : Bool) (e : PricingEvent) (evs : List PricingEvent)
    (e2 : DemandEvent) (evs2 : List DemandEvent) :
    pricingRun clk ps .init (e :: evs) = [pricingHandlerResponse clk ps e] ∧
    demandRun dbOk .init (e2 :: evs2) = [demandHandlerResult dbOk e2] := by
  constructor
  · have h1 := pricingStep_init clk ps e
    have hstep : pricingStep clk ps .init e =
        ((pricingStep clk ps .init e).1,
         some (pricingHandlerResponse clk ps e)) := by rw [← h1.2]
    simp only [pricingRun]
    rw [hstep]
    simp [pricingRun_after_sent clk ps evs _ h1.1]
  · have h1 := demandStep_init dbOk e2
    have hstep : demandStep dbOk .init e2 =
        ((demandStep dbOk .init e2).1,
         some (demandHandlerResult dbOk e2)) := by rw [← h1.2]
    simp only [demandRun]
    rw [hstep]
    simp [demandRun_after_sent dbOk evs2 _ h1.1]

end SmartBazaar
